import Mathlib

/-!
Verification of the SPC3 single-photon camera modules of this repository
(`qudi/hardware/camera/SPC3/spc.py`, `qudi/hardware/camera/SPC3/spc3_qudi.py`
and the camera GUI exposure panels), shallowly embedded in Lean.

Modelling conventions:
- numpy arrays are flat row-major buffers with an explicit shape, matching
  numpy's memory model; each `np*` helper below is the value-level semantics
  of the corresponding numpy operation on such buffers;
- Python integers are `Nat`/`Int`; Python floats are modelled as exact
  rationals (`ℚ`), with `int(...)` truncation and `round(...)` half-to-even
  made explicit;
- Python functions that can raise return `Option`, `none` standing for a
  raised exception.
-/

/-- A numpy array value: a shape together with the flat row-major data.
All constructors used below keep the invariant `data.length = shape.prod`. -/
structure NDArray where
  shape : List Nat
  data : List Nat
deriving Repr, DecidableEq

/-- Value of `ndarray.reshape(sh)` for a contiguous row-major array: the flat
data is unchanged, only the shape changes; `none` where numpy raises because
the total sizes differ. -/
def npReshape (a : NDArray) (sh : List Nat) : Option NDArray :=
  if sh.prod = a.data.length then some { shape := sh, data := a.data } else none

/-- Value of `np.pad(a, ((0, 0), (0, p)))` on a 2-d array: every row is
extended on the right with `p` zeros. -/
def npPadRowsRight (a : NDArray) (p : Nat) : Option NDArray :=
  match a.shape with
  | [n, m] =>
      some { shape := [n, m + p],
             data := (List.range (n * (m + p))).map fun idx =>
               if idx % (m + p) < m then
                 a.data.getD ((idx / (m + p)) * m + idx % (m + p)) 0
               else 0 }
  | _ => none

/-- Value of `np.swapaxes(a, 0, 1)` on a 4-d array, materialised in row-major
order: element `(j, i, k, l)` of the result is element `(i, j, k, l)` of `a`. -/
def npSwapaxes01 (a : NDArray) : Option NDArray :=
  match a.shape with
  | [d0, d1, d2, d3] =>
      some { shape := [d1, d0, d2, d3],
             data := (List.range (d1 * d0 * d2 * d3)).map fun idx =>
               let l := idx % d3
               let k := idx / d3 % d2
               let i := idx / d3 / d2 % d0
               let j := idx / d3 / d2 / d0
               a.data.getD (((i * d1 + j) * d2 + k) * d3 + l) 0 }
  | _ => none

/-- Value of `np.swapaxes(a, ndim - 2, ndim - 1)` on a 4-d array (transpose of
the two innermost axes), materialised in row-major order: element
`(i, j, l, k)` of the result is element `(i, j, k, l)` of `a`. -/
def npSwapaxes23 (a : NDArray) : Option NDArray :=
  match a.shape with
  | [d0, d1, d2, d3] =>
      some { shape := [d0, d1, d3, d2],
             data := (List.range (d0 * d1 * d3 * d2)).map fun idx =>
               let k := idx % d2
               let l := idx / d2 % d3
               let j := idx / d2 / d3 % d1
               let i := idx / d2 / d3 / d1
               a.data.getD (((i * d1 + j) * d2 + k) * d3 + l) 0 }
  | _ => none

/-- Element of a 4-d array at multi-index `(i, j, k, l)` (0 outside bounds). -/
def NDArray.get4 (a : NDArray) (i j k l : Nat) : Nat :=
  match a.shape with
  | [_, d1, d2, d3] => a.data.getD (((i * d1 + j) * d2 + k) * d3 + l) 0
  | _ => 0

/-- Shallow embedding of the static method `SPC3.BufferToFrames` of `spc.py`.
The flat pixel stream `data` is cut into per-frame pixel runs, each run is
zero-padded on the right up to a whole number of 32-pixel rows when
`num_pixels` is not a multiple of 32, the result is reshaped to
`[frames][counters][rows][32]`, the frame and counter axes are swapped, and the
two innermost axes are transposed.  `none` stands for a raised exception (the
`ValueError` on a malformed buffer length, or a numpy reshape failure). -/
def BufferToFrames (data : List Nat) (num_pixels num_counters : Nat) : Option NDArray :=
  if data.length % (num_pixels * num_counters) ≠ 0 then none
  else
    let row_size := 32
    let num_full_rows := (num_pixels + row_size - 1) / row_size
    (npReshape { shape := [data.length], data := data }
        [data.length / num_pixels, num_pixels]).bind fun all_flat_frames =>
      let num_frames := all_flat_frames.shape.headD 0 / num_counters
      (if num_pixels % row_size = 0 then
          npReshape all_flat_frames [num_frames, num_counters, num_full_rows, row_size]
        else
          let num_pad_pixels := row_size * num_full_rows - num_pixels
          (npPadRowsRight all_flat_frames num_pad_pixels).bind fun all_flat_frames_padded =>
            npReshape all_flat_frames_padded
              [num_frames, num_counters, num_full_rows, row_size]).bind fun frames =>
        (npSwapaxes01 frames).bind fun swapped => npSwapaxes23 swapped

example : (BufferToFrames (List.range 67) 67 1).map NDArray.shape = some [1, 1, 32, 3] := by
  decide

example :
    (BufferToFrames (List.range 67) 67 1).map (fun t => t.get4 0 0 31 2) = some 0 := by
  decide

example :
    (BufferToFrames (List.range 67) 67 1).map (fun t => t.get4 0 0 0 2) = some 64 := by
  decide

example : BufferToFrames (List.range 5) 3 1 = none := by decide

/-! Index arithmetic helpers for the row-major flat representation. -/

theorem decompMod (a b d : Nat) (hb : b < d) : (a * d + b) % d = b := by
  rw [mul_comm, Nat.mul_add_mod, Nat.mod_eq_of_lt hb]

theorem decompDiv (a b d : Nat) (hb : b < d) : (a * d + b) / d = a := by
  rw [mul_comm, Nat.mul_add_div (lt_of_le_of_lt (Nat.zero_le b) hb),
    Nat.div_eq_of_lt hb, add_zero]

theorem mulIdx_lt (x y B d : Nat) (hx : x < B) (hy : y < d) : x * d + y < B * d := by
  calc x * d + y < x * d + d := by omega
    _ = (x + 1) * d := by ring
    _ ≤ B * d := Nat.mul_le_mul_right d hx

theorem getD_map_range (n : Nat) (f : Nat → α) (i : Nat) (hi : i < n) (d : α) :
    ((List.range n).map f).getD i d = f i := by
  rw [List.getD_eq_getElem?_getD, List.getElem?_map, List.getElem?_range hi]
  rfl

/-! Pointwise characterizations of the numpy operation values. -/

theorem npPadRowsRight_char (n m p : Nat) (D : List Nat) :
    ∃ E, npPadRowsRight ⟨[n, m], D⟩ p = some ⟨[n, m + p], E⟩ ∧
      E.length = n * (m + p) ∧
      ∀ i j, i < n → j < m + p →
        E.getD (i * (m + p) + j) 0 = if j < m then D.getD (i * m + j) 0 else 0 := by
  refine ⟨_, rfl, by simp, ?_⟩
  intro i j hi hj
  rw [getD_map_range _ _ _ (mulIdx_lt i j n (m + p) hi hj)]
  rw [decompMod i j (m + p) hj, decompDiv i j (m + p) hj]

theorem npSwapaxes01_char (d0 d1 d2 d3 : Nat) (D : List Nat) :
    ∃ E, npSwapaxes01 ⟨[d0, d1, d2, d3], D⟩ = some ⟨[d1, d0, d2, d3], E⟩ ∧
      ∀ i j k l, i < d0 → j < d1 → k < d2 → l < d3 →
        E.getD (((j * d0 + i) * d2 + k) * d3 + l) 0 =
          D.getD (((i * d1 + j) * d2 + k) * d3 + l) 0 := by
  refine ⟨_, rfl, ?_⟩
  intro i j k l hi hj hk hl
  have hb : ((j * d0 + i) * d2 + k) * d3 + l < d1 * d0 * d2 * d3 :=
    mulIdx_lt _ l _ d3 (mulIdx_lt _ k _ d2 (mulIdx_lt j i d1 d0 hj hi) hk) hl
  rw [getD_map_range _ _ _ hb]
  simp only
  rw [decompMod _ l d3 hl, decompDiv _ l d3 hl, decompMod _ k d2 hk, decompDiv _ k d2 hk,
    decompMod j i d0 hi, decompDiv j i d0 hi]

theorem npSwapaxes23_char (d0 d1 d2 d3 : Nat) (D : List Nat) :
    ∃ E, npSwapaxes23 ⟨[d0, d1, d2, d3], D⟩ = some ⟨[d0, d1, d3, d2], E⟩ ∧
      ∀ i j k l, i < d0 → j < d1 → k < d2 → l < d3 →
        E.getD (((i * d1 + j) * d3 + l) * d2 + k) 0 =
          D.getD (((i * d1 + j) * d2 + k) * d3 + l) 0 := by
  refine ⟨_, rfl, ?_⟩
  intro i j k l hi hj hk hl
  have hb : ((i * d1 + j) * d3 + l) * d2 + k < d0 * d1 * d3 * d2 :=
    mulIdx_lt _ k _ d2 (mulIdx_lt _ l _ d3 (mulIdx_lt i j d0 d1 hi hj) hl) hk
  rw [getD_map_range _ _ _ hb]
  simp only
  rw [decompMod _ k d2 hk, decompDiv _ k d2 hk, decompMod _ l d3 hl, decompDiv _ l d3 hl,
    decompMod i j d1 hj, decompDiv i j d1 hj]

/-- The two axis swaps applied to a `[frames][counters][rows][32]` block whose
flat rows satisfy the padded-run description: pointwise description of the
final tensor produced by `BufferToFrames`. -/
theorem swapPipeline_char (P C mm rows : Nat) (data Dbr : List Nat)
    (hDbr : ∀ i j, i < C * mm → j < 32 * rows →
      Dbr.getD (i * (32 * rows) + j) 0 = if j < P then data.getD (i * P + j) 0 else 0) :
    ∃ E, (npSwapaxes01 ⟨[mm, C, rows, 32], Dbr⟩).bind npSwapaxes23 =
        some ⟨[C, mm, 32, rows], E⟩ ∧
      ∀ c f a b, c < C → f < mm → a < 32 → b < rows →
        E.getD (((c * mm + f) * 32 + a) * rows + b) 0 =
          if b * 32 + a < P then data.getD ((f * C + c) * P + (b * 32 + a)) 0 else 0 := by
  obtain ⟨E1, he1, hg1⟩ := npSwapaxes01_char mm C rows 32 Dbr
  obtain ⟨E2, he2, hg2⟩ := npSwapaxes23_char C mm rows 32 E1
  refine ⟨E2, ?_, ?_⟩
  · rw [he1]
    exact he2
  · intro c f a b hc hf ha hb
    rw [hg2 c f b a hc hf hb ha, hg1 f c b a hf hc hb ha]
    have hidx : ((f * C + c) * rows + b) * 32 + a =
        (f * C + c) * (32 * rows) + (b * 32 + a) := by ring
    rw [hidx, hDbr (f * C + c) (b * 32 + a)
      (mul_comm mm C ▸ mulIdx_lt f c mm C hf hc)
      (mul_comm rows 32 ▸ mulIdx_lt b a rows 32 hb ha)]

/-- Master characterization of `BufferToFrames` on a buffer whose length is a
multiple of `num_pixels * num_counters`: the call succeeds, the tensor shape is
`[counters, frames, 32, ceil(num_pixels/32)]`, element `(c, f, a, b)` holds
pixel `b * 32 + a` of the flat run of frame `f` / counter `c`, and the padded
positions hold zero. -/
theorem bufferToFrames_char (data : List Nat) (P C : Nat) (hP : 1 ≤ P) (hC : 1 ≤ C)
    (hdvd : P * C ∣ data.length) :
    ∃ t, BufferToFrames data P C = some t ∧
      t.shape = [C, data.length / (P * C), 32, (P + 31) / 32] ∧
      ∀ c f a b, c < C → f < data.length / (P * C) → a < 32 → b < (P + 31) / 32 →
        t.get4 c f a b =
          if b * 32 + a < P then data.getD ((f * C + c) * P + (b * 32 + a)) 0 else 0 := by
  have hPpos : 0 < P := hP
  have hCpos : 0 < C := hC
  have hPC : 0 < P * C := Nat.mul_pos hPpos hCpos
  have hLmm : data.length / (P * C) * (P * C) = data.length := Nat.div_mul_cancel hdvd
  have hPL : P ∣ data.length := dvd_trans (dvd_mul_right P C) hdvd
  have hFP : data.length / P = C * (data.length / (P * C)) := by
    have h : data.length = P * (C * (data.length / (P * C))) := by
      conv_lhs => rw [← hLmm]
      ring
    conv_lhs => rw [h]
    rw [Nat.mul_div_cancel_left _ hPpos]
  have hguard : ¬ (data.length % (P * C) ≠ 0) := by
    have h0 : data.length % (P * C) = 0 := Nat.mod_eq_zero_of_dvd hdvd
    exact fun hne => hne h0
  have hrw2 : (P + 32 - 1) / 32 = (P + 31) / 32 := by omega
  have hProws : P ≤ 32 * ((P + 31) / 32) := by omega
  have hrows31 : 32 * ((P + 31) / 32) ≤ P + 31 := by omega
  have hrowspos : 0 < (P + 31) / 32 := by omega
  simp only [BufferToFrames]
  rw [if_neg hguard, hrw2]
  have h1 : npReshape { shape := [data.length], data := data } [data.length / P, P] =
      some ⟨[data.length / P, P], data⟩ := by
    unfold npReshape
    rw [if_pos]
    simp [Nat.div_mul_cancel hPL]
  rw [h1]
  simp only [Option.some_bind, List.headD_cons]
  rw [hFP, Nat.mul_div_cancel_left _ hCpos]
  by_cases hmod : P % 32 = 0
  · -- the pixel count is already a whole number of 32-pixel rows: no padding
    rw [if_pos hmod]
    have h32 : 32 * ((P + 31) / 32) = P := by omega
    have h2 : npReshape ⟨[C * (data.length / (P * C)), P], data⟩
        [data.length / (P * C), C, (P + 31) / 32, 32] =
        some ⟨[data.length / (P * C), C, (P + 31) / 32, 32], data⟩ := by
      unfold npReshape
      rw [if_pos]
      simp only [List.prod_cons, List.prod_nil, mul_one]
      calc data.length / (P * C) * (C * ((P + 31) / 32 * 32)) =
            data.length / (P * C) * (P * C) := by rw [mul_comm ((P + 31) / 32) 32, h32]; ring
        _ = data.length := hLmm
    rw [h2]
    simp only [Option.some_bind]
    have hDbr : ∀ i j, i < C * (data.length / (P * C)) → j < 32 * ((P + 31) / 32) →
        data.getD (i * (32 * ((P + 31) / 32)) + j) 0 =
          if j < P then data.getD (i * P + j) 0 else 0 := by
      intro i j hi hj
      rw [h32] at hj ⊢
      rw [if_pos hj]
    obtain ⟨E, hE, hEg⟩ :=
      swapPipeline_char P C (data.length / (P * C)) ((P + 31) / 32) data data hDbr
    refine ⟨⟨[C, data.length / (P * C), 32, (P + 31) / 32], E⟩, hE, rfl, ?_⟩
    intro c f a b hc hf ha hb
    exact hEg c f a b hc hf ha hb
  · -- unaligned pixel count: each flat frame is zero-padded on the right
    rw [if_neg hmod]
    obtain ⟨E0, hpad, hlen, hpadg⟩ :=
      npPadRowsRight_char (C * (data.length / (P * C))) P (32 * ((P + 31) / 32) - P) data
    have hsub : P + (32 * ((P + 31) / 32) - P) = 32 * ((P + 31) / 32) := by omega
    rw [hpad]
    simp only [Option.some_bind]
    have hresh : npReshape ⟨[C * (data.length / (P * C)), P + (32 * ((P + 31) / 32) - P)], E0⟩
        [data.length / (P * C), C, (P + 31) / 32, 32] =
        some ⟨[data.length / (P * C), C, (P + 31) / 32, 32], E0⟩ := by
      unfold npReshape
      rw [if_pos]
      simp only [List.prod_cons, List.prod_nil, mul_one]
      rw [hlen, hsub]
      ring
    rw [hresh]
    simp only [Option.some_bind]
    have hDbr : ∀ i j, i < C * (data.length / (P * C)) → j < 32 * ((P + 31) / 32) →
        E0.getD (i * (32 * ((P + 31) / 32)) + j) 0 =
          if j < P then data.getD (i * P + j) 0 else 0 := by
      intro i j hi hj
      have h := hpadg i j hi (by omega)
      rw [hsub] at h
      exact h
    obtain ⟨E, hE, hEg⟩ :=
      swapPipeline_char P C (data.length / (P * C)) ((P + 31) / 32) data E0 hDbr
    refine ⟨⟨[C, data.length / (P * C), 32, (P + 31) / 32], E⟩, hE, rfl, ?_⟩
    intro c f a b hc hf ha hb
    exact hEg c f a b hc hf ha hb

/-- C1: for every buffer whose length is an exact multiple of
`pixel_count * counter_count` (both at least 1), `BufferToFrames` returns the
tensor obtained by reshaping the flat data into
`[frame][counter][ceil(pixel_count/32)][32]` blocks with the pixel run of each
frame zero-padded on the right, then swapping the frame and counter axes and
transposing the row/column axes: the output shape contains
`rows = ceil(pixel_count/32)` (as the axis the row/column transpose moved last)
and every padded element reads back as zero. -/
theorem bufferToFrames_reshape_pad_swap_transpose (data : List Nat) (P C : Nat)
    (hP : 1 ≤ P) (hC : 1 ≤ C) (hdvd : P * C ∣ data.length) :
    ∃ t, BufferToFrames data P C = some t ∧
      t.shape = [C, data.length / (P * C), 32, (P + 31) / 32] ∧
      ∀ c f a b, c < C → f < data.length / (P * C) → a < 32 → b < (P + 31) / 32 →
        t.get4 c f a b =
          if b * 32 + a < P then data.getD ((f * C + c) * P + (b * 32 + a)) 0 else 0 :=
  bufferToFrames_char data P C hP hC hdvd

/-- Witness for C1 at the spec's own example: 67 pixels, one counter, one
frame, 3 = ceil(67/32) rows. -/
theorem bufferToFrames_reshape_pad_swap_transpose_witness :
    (1 ≤ 67 ∧ 1 ≤ 1 ∧ 67 * 1 ∣ (List.range 67).length) ∧
      (∃ t, BufferToFrames (List.range 67) 67 1 = some t ∧
        t.shape = [1, (List.range 67).length / (67 * 1), 32, (67 + 31) / 32] ∧
        ∀ c f a b, c < 1 → f < (List.range 67).length / (67 * 1) → a < 32 →
          b < (67 + 31) / 32 →
          t.get4 c f a b =
            if b * 32 + a < 67 then (List.range 67).getD ((f * 1 + c) * 67 + (b * 32 + a)) 0
            else 0) :=
  ⟨⟨by decide, by decide, by decide⟩,
    bufferToFrames_reshape_pad_swap_transpose (List.range 67) 67 1 (by decide) (by decide)
      (by decide)⟩

/-- C8: with `pixel_count ≥ 1` and `counter_count ≥ 1`, `BufferToFrames` fails
(raises) exactly when the buffer length is not a multiple of
`pixel_count * counter_count`; on every multiple it returns a tensor. -/
theorem bufferToFrames_malformed_iff (data : List Nat) (P C : Nat)
    (hP : 1 ≤ P) (hC : 1 ≤ C) :
    BufferToFrames data P C = none ↔ ¬ (P * C ∣ data.length) := by
  constructor
  · intro hnone hdvd
    obtain ⟨t, ht, -, -⟩ := bufferToFrames_char data P C hP hC hdvd
    rw [ht] at hnone
    exact Option.noConfusion hnone
  · intro hndvd
    have hne : data.length % (P * C) ≠ 0 := fun h0 => hndvd (Nat.dvd_of_mod_eq_zero h0)
    simp only [BufferToFrames]
    rw [if_pos hne]

/-- Witness for C8: a 5-element buffer with 3 pixels and 2 counters. -/
theorem bufferToFrames_malformed_iff_witness :
    (1 ≤ 3 ∧ 1 ≤ 2) ∧
      (BufferToFrames [0, 0, 0, 0, 0] 3 2 = none ↔ ¬ (3 * 2 ∣ ([0, 0, 0, 0, 0] : List Nat).length)) :=
  ⟨⟨by decide, by decide⟩, bufferToFrames_malformed_iff [0, 0, 0, 0, 0] 3 2 (by decide) (by decide)⟩

/-! File format module: `SPC3.ReadSPC3DataFile` of `spc.py`.  A file is a list
of bytes.  The source's `readfield(inf, count, c_type)` helper reads
`count * sizeof(c_type)` bytes at the current file position and advances it;
multi-byte integers are little-endian (x86 `ctypes.from_buffer_copy`).  Fields
that the Python code scales by a float factor on read (firmware version / 100,
integration time x 10e-9 s, hold-off x 1e-9 s) are stored here as the raw
integers, the scaling being a lossless constant factor. -/

/-- Single byte read at offset `p` (0 past the end, as a short ctypes read). -/
def rdU8 (bs : List Nat) (p : Nat) : Nat := bs.getD p 0

/-- Little-endian 16-bit read at byte offset `p`. -/
def rdU16 (bs : List Nat) (p : Nat) : Nat := bs.getD p 0 + 256 * bs.getD (p + 1) 0

/-- Little-endian 32-bit read at byte offset `p`. -/
def rdU32 (bs : List Nat) (p : Nat) : Nat :=
  bs.getD p 0 + 256 * bs.getD (p + 1) 0 + 65536 * bs.getD (p + 2) 0 +
    16777216 * bs.getD (p + 3) 0

/-- Raw byte-string read of `n` bytes starting at offset `p`. -/
def rdBytes (bs : List Nat) (p n : Nat) : List Nat := (bs.drop p).take n

/-- The header fields assembled by `SPC3.ReadSPC3DataFile` (its inner
`SPC3FileHeader` class), up to and including `N_pix`; the FLIM / multi-gate /
coarse-gate / PDE fields read after `N_pix` do not influence the payload
location (the code seeks back to the file start and reads the payload at the
absolute offset 1024 + 8) and are omitted. -/
structure SPC3FileHeader where
  camera_id : List Nat
  SN : List Nat
  FW_VER_raw : Nat
  custom_ver_raw : Nat
  date_time : List Nat
  N_rows : Nat
  N_cols : Nat
  bit_x_pix : Nat
  N_counters : Nat
  HwIntTime_raw : Nat
  SummedFrames : Nat
  DeadTimeCorrectionON : Bool
  GateDuty_C1 : Nat
  HoldOff_raw : Nat
  BKGsubON : Bool
  C1_2_signed : Bool
  N_frames : Nat
  ImgAveraged : Bool
  Caveraged : Nat
  N_ave : Nat
  GateDuty_C2 : Nat
  GateDuty_C3 : Nat
  Frames_x_syncIn : Nat
  N_pix : Nat
deriving Repr, DecidableEq

/-- Sequential header parse of `SPC3.ReadSPC3DataFile`: each position is the
previous position advanced by the byte width of the previous read, in exactly
the order of the `readfield` calls in the source.  The first read is the
8-byte signature, assigned to an unused variable and never compared to
anything. -/
def ReadSPC3Header (bs : List Nat) : SPC3FileHeader :=
  let sigPos := 0
  let cameraIdPos := sigPos + 8
  let snPos := cameraIdPos + 10
  let fwVerPos := snPos + 32
  let customVerPos := fwVerPos + 2
  let dateTimePos := customVerPos + 1
  let reservedPos := dateTimePos + 20
  let nRowsPos := reservedPos + 35
  let nColsPos := nRowsPos + 1
  let bitXPixPos := nColsPos + 1
  let nCountersPos := bitXPixPos + 1
  let hwIntTimePos := nCountersPos + 1
  let summedFramesPos := hwIntTimePos + 2
  let deadTimePos := summedFramesPos + 2
  let gateDutyC1Pos := deadTimePos + 1
  let holdOffPos := gateDutyC1Pos + 1
  let bkgSubPos := holdOffPos + 2
  let signedPos := bkgSubPos + 1
  let nFramesPos := signedPos + 1
  let imgAveragedPos := nFramesPos + 4
  let cAveragedPos := imgAveragedPos + 1
  let nAvePos := cAveragedPos + 1
  let gateDutyC2Pos := nAvePos + 2
  let gateDutyC3Pos := gateDutyC2Pos + 1
  let framesXSyncPos := gateDutyC3Pos + 1
  let nPixPos := framesXSyncPos + 2
  { camera_id := rdBytes bs cameraIdPos 10
    SN := rdBytes bs snPos 32
    FW_VER_raw := rdU16 bs fwVerPos
    custom_ver_raw := rdU8 bs customVerPos
    date_time := rdBytes bs dateTimePos 20
    N_rows := rdU8 bs nRowsPos
    N_cols := rdU8 bs nColsPos
    bit_x_pix := rdU8 bs bitXPixPos
    N_counters := rdU8 bs nCountersPos
    HwIntTime_raw := rdU16 bs hwIntTimePos
    SummedFrames := rdU16 bs summedFramesPos
    DeadTimeCorrectionON := rdU8 bs deadTimePos != 0
    GateDuty_C1 := rdU8 bs gateDutyC1Pos
    HoldOff_raw := rdU16 bs holdOffPos
    BKGsubON := rdU8 bs bkgSubPos != 0
    C1_2_signed := rdU8 bs signedPos != 0
    N_frames := rdU32 bs nFramesPos
    ImgAveraged := rdU8 bs imgAveragedPos != 0
    Caveraged := rdU8 bs cAveragedPos
    N_ave := rdU16 bs nAvePos
    GateDuty_C2 := rdU8 bs gateDutyC2Pos
    GateDuty_C3 := rdU8 bs gateDutyC3Pos
    Frames_x_syncIn := rdU16 bs framesXSyncPos
    N_pix := rdU16 bs nPixPos }

/-- Value of `np.fromfile(inf, offset, count, dtype=np.uint8)`: up to `count`
bytes starting at `offset` (numpy reads at most what is available). -/
def fromfileU8 (bs : List Nat) (offset count : Nat) : List Nat :=
  (bs.drop offset).take count

/-- Value of `np.fromfile(inf, offset, count, dtype=np.uint16)`: up to `count`
little-endian 16-bit items starting at `offset`. -/
def fromfileU16 (bs : List Nat) (offset count : Nat) : List Nat :=
  (List.range (min count ((bs.length - offset) / 2))).map fun i => rdU16 bs (offset + 2 * i)

/-- Shallow embedding of `SPC3.ReadSPC3DataFile` of `spc.py`: parse the header
sequentially, seek back to the file start, read
`N_cols * N_rows * N_frames * N_counters` payload samples at the absolute
offset `1024 + 8` with the element width given by `bit_x_pix`, and reshape them
with `BufferToFrames`.  `none` stands for a raised exception (invalid bit
width, or a `BufferToFrames` failure). -/
def ReadSPC3DataFile (bs : List Nat) : Option (NDArray × SPC3FileHeader) :=
  let header := ReadSPC3Header bs
  let data_count := header.N_cols * header.N_rows * header.N_frames * header.N_counters
  if header.bit_x_pix = 16 then
    (BufferToFrames (fromfileU16 bs (1024 + 8) data_count) header.N_pix
        header.N_counters).map fun frames => (frames, header)
  else if header.bit_x_pix = 8 then
    (BufferToFrames (fromfileU8 bs (1024 + 8) data_count) header.N_pix
        header.N_counters).map fun frames => (frames, header)
  else none

/-- Modelled from the spec: the 8-byte image-file signature
`0x4D5044FF04000000` of section 4.3.  The code of `ReadSPC3DataFile` defines
no such constant and never compares the first 8 bytes to anything; this
constant exists only to state what the spec expects. -/
def expectedSignature : List Nat := [0x4D, 0x50, 0x44, 0xFF, 0x04, 0x00, 0x00, 0x00]

/-- C2 (amended): the sequential parse lands integration cycles at absolute
byte offset 112 (2 bytes) and integrated frames at 114 (2 bytes) as the spec
table says, but the dead-time-correction flag at 116 (not 115), the frame
count at 122 (not 121) and the pixel count at 134 (not 133); the pixel payload
is read at the absolute offset 1024 + 8 = 1032 from the file start. -/
theorem readSPC3Header_field_offsets (bs : List Nat) :
    (ReadSPC3Header bs).HwIntTime_raw = rdU16 bs 112 ∧
    (ReadSPC3Header bs).SummedFrames = rdU16 bs 114 ∧
    (ReadSPC3Header bs).DeadTimeCorrectionON = (rdU8 bs 116 != 0) ∧
    (ReadSPC3Header bs).N_frames = rdU32 bs 122 ∧
    (ReadSPC3Header bs).N_pix = rdU16 bs 134 ∧
    (∀ count, fromfileU8 bs (1024 + 8) count = (bs.drop 1032).take count) ∧
    (∀ count, fromfileU16 bs (1024 + 8) count =
      (List.range (min count ((bs.length - 1032) / 2))).map fun i => rdU16 bs (1032 + 2 * i)) :=
  ⟨rfl, rfl, rfl, rfl, rfl, fun _ => rfl, fun _ => rfl⟩

/-- A 1032-byte file, all zero except byte 115 = 1 and byte 134 = 5. -/
def exC2File : List Nat := ((List.replicate 1032 0).set 115 1).set 134 5

/-- Counterexample for C2 as stated: on `exC2File` the parsed
dead-time-correction flag is not the byte at offset 115 (the parse reads
offset 116), and the parsed pixel count is not the 16-bit field at offset 133
(the parse reads offset 134). -/
theorem readSPC3Header_spec_offsets_cex :
    ((ReadSPC3Header exC2File).DeadTimeCorrectionON ≠ (rdU8 exC2File 115 != 0)) ∧
    ((ReadSPC3Header exC2File).N_pix ≠ rdU16 exC2File 133) := by
  decide

set_option maxHeartbeats 2000000 in
set_option maxRecDepth 4000 in
/-- C3 (amended): `ReadSPC3DataFile` reads the first 8 bytes but never
compares them to the signature: decoding a file that starts with the correct
signature and decoding the same file with the signature overwritten by zeros
give identical results, so a signature mismatch is parsed best-effort instead
of failing with `NotAFrameFile`. -/
theorem readSPC3DataFile_ignores_signature (rest : List Nat) :
    ReadSPC3DataFile (expectedSignature ++ rest) =
        ReadSPC3DataFile (List.replicate 8 0 ++ rest) ∧
      expectedSignature ≠ List.replicate 8 0 := by
  have hgd : ∀ (sig : List Nat), sig.length = 8 → ∀ p, 8 ≤ p →
      (sig ++ rest).getD p 0 = rest.getD (p - 8) 0 := by
    intro sig hs p hp
    rw [List.getD_eq_getElem?_getD, List.getElem?_append_right (by omega), hs,
      ← List.getD_eq_getElem?_getD]
  have hH : ReadSPC3Header (expectedSignature ++ rest) =
      ReadSPC3Header (List.replicate 8 0 ++ rest) := rfl
  have hu8 : ∀ cnt, fromfileU8 (expectedSignature ++ rest) (1024 + 8) cnt =
      fromfileU8 (List.replicate 8 0 ++ rest) (1024 + 8) cnt := fun _ => rfl
  have hu16 : ∀ cnt, fromfileU16 (expectedSignature ++ rest) (1024 + 8) cnt =
      fromfileU16 (List.replicate 8 0 ++ rest) (1024 + 8) cnt := by
    intro cnt
    unfold fromfileU16
    have hlen : (expectedSignature ++ rest).length = (List.replicate 8 0 ++ rest).length := rfl
    rw [hlen]
    apply List.map_congr_left
    intro i _
    unfold rdU16
    rw [hgd expectedSignature rfl _ (by omega), hgd (List.replicate 8 0) rfl _ (by omega),
      hgd expectedSignature rfl _ (by omega), hgd (List.replicate 8 0) rfl _ (by omega)]
  refine ⟨?_, by decide⟩
  simp only [ReadSPC3DataFile]
  rw [hH, hu8, hu16]

/-- A syntactically complete 1064-byte file whose first 8 bytes are all zero
(not the signature): 1 row, 32 columns, 8 bits per pixel, 1 counter, 1 frame,
32 pixels, followed by a 32-byte payload. -/
def exC3File : List Nat :=
  ((((((List.replicate 1064 0).set 108 1).set 109 32).set 110 8).set 111 1).set
    122 1).set 134 32

set_option maxRecDepth 8000 in
set_option maxHeartbeats 2000000 in
/-- Counterexample for C3 as stated: `exC3File` does not start with the
signature, yet `ReadSPC3DataFile` returns parsed frames instead of failing. -/
theorem readSPC3DataFile_no_signature_check_cex :
    (ReadSPC3DataFile exC3File).isSome = true ∧ exC3File.take 8 ≠ expectedSignature := by
  decide

/-! Acquisition layer: class `SPC3_Qudi` of `spc3_qudi.py`.  The mutable
attributes that the verified claims touch form the state; the live frame that
the hardware call `LiveGetImg()` would deliver enters as an explicit function
parameter (counter-1 frame, flattened to 1-d; the trailing reshape of
`get_acquired_data` to `(rows, cols)` permutes no values and is not
modelled).  Pixel values are `Int`; the numpy float32 intermediate arithmetic
acts on exactly representable integer counts and is modelled exactly, with the
final `astype` integer casts made explicit. -/

/-- The two `camera_mode` configuration values. -/
inductive CameraMode
  | Normal
  | Advanced
deriving Repr, DecidableEq

/-- The two `display_units` values accepted by `set_display_units`. -/
inductive DisplayUnits
  | counts
  | cps
deriving Repr, DecidableEq

/-- The Python float literal `10e-9` (ten nanoseconds in seconds). -/
def tenNanoseconds : ℚ := 10 / 10 ^ 9

/-- The class constant `_HardwareIntegration_Normal` (clock cycles). -/
def HardwareIntegration_Normal : Nat := 1040

/-- Python `round()`: round half to even. -/
def pyRound (q : ℚ) : Int :=
  let f := ⌊q⌋
  let r := q - f
  if r < 1 / 2 then f
  else if 1 / 2 < r then f + 1
  else if f % 2 = 0 then f else f + 1

/-- Python `int()` on a float value: truncation toward zero. -/
def pyTrunc (q : ℚ) : Int := q.num.tdiv q.den

/-- The mutable `SPC3_Qudi` attributes the claims are about.  The values shown
with the example state `exState` below are the configuration defaults. -/
structure QudiState where
  camera_mode : CameraMode
  HardwareIntegration : Nat
  NFrames : Nat
  NIntegFrames : Nat
  exposure : ℚ
  live : Bool
  acquiring : Bool
  continuous : Bool
  background_subtraction_enabled : Bool
  background_image : Option (List Int)
  display_units : DisplayUnits
deriving Repr, DecidableEq

/-- `SPC3_Qudi.start_live_acquisition`: no precondition is checked; the live
flag is set, the acquiring flag cleared, and `True` returned. -/
def start_live_acquisition (s : QudiState) : QudiState × Bool :=
  ({ s with live := true, acquiring := false }, true)

/-- `SPC3_Qudi.continuous_acquisition`: refuses while live or acquiring,
otherwise sets the continuous flag and returns `True`. -/
def continuous_acquisition (s : QudiState) : QudiState × Bool :=
  if s.live || s.acquiring then (s, false)
  else ({ s with continuous := true }, true)

/-- `SPC3_Qudi.stop_continuous_acquisition`. -/
def stop_continuous_acquisition (s : QudiState) : QudiState × Bool :=
  if s.continuous then ({ s with continuous := false }, true) else (s, true)

/-- `SPC3_Qudi.stop_acquisition`. -/
def stop_acquisition (s : QudiState) : QudiState :=
  { s with live := false, acquiring := false }

/-- The local `hardware_time` computation shared by `set_exposure`,
`get_exposure` and `set_binning`: the per-cycle integration time in seconds,
mode dependent (`_HardwareIntegration` cycles in Advanced mode, the 1040-cycle
constant in Normal mode). -/
def hardware_time (s : QudiState) : ℚ :=
  if s.camera_mode = CameraMode.Advanced then (s.HardwareIntegration : ℚ) * tenNanoseconds
  else (HardwareIntegration_Normal : ℚ) * tenNanoseconds

/-- Result of `SPC3_Qudi.set_exposure`: the new state, the returned boolean,
and whether the `log.warning` branch was taken. -/
structure SetExposureResult where
  state : QudiState
  retval : Bool
  warned : Bool

/-- `SPC3_Qudi.set_exposure(exposure)`: compute
`int(round(exposure / hardware_time))`, clamp it to `[1, 65534]`, warn when
the clamp changed the value, store the clamped count and the actually achieved
exposure `count * hardware_time`, and return `True`. -/
def set_exposure (s : QudiState) (exposure : ℚ) : SetExposureResult :=
  let n_integ_frames := pyRound (exposure / hardware_time s)
  let clamped := max 1 (min n_integ_frames 65534)
  let warned := clamped != pyRound (exposure / hardware_time s)
  { state := { s with
      NIntegFrames := clamped.toNat
      exposure := (clamped : ℚ) * hardware_time s }
    retval := true
    warned := warned }

/-- `SPC3_Qudi.get_exposure`: recompute and store
`NIntegFrames * hardware_time` and return it. -/
def get_exposure (s : QudiState) : QudiState × ℚ :=
  let e := (s.NIntegFrames : ℚ) * hardware_time s
  ({ s with exposure := e }, e)

/-- `SPC3_Qudi.set_binning(binning)`: clamp to `[1, 65534]`, store, and update
the exposure accordingly. -/
def set_binning (s : QudiState) (binning : Int) : QudiState × Bool :=
  let b := max 1 (min binning 65534)
  ({ s with NIntegFrames := b.toNat, exposure := (b : ℚ) * hardware_time s }, true)

/-- `SPC3_Qudi.set_hardware_integration(integration_seconds)`: rejected in
Normal mode; in Advanced mode converts seconds to clock cycles via
`int(round(seconds * 1e9 / 10))`, clamps to `[1, 65534]`, stores it and the
resulting exposure `NIntegFrames * cycles * 10e-9`. -/
def set_hardware_integration (s : QudiState) (integration_seconds : ℚ) : QudiState × Bool :=
  if s.camera_mode ≠ CameraMode.Advanced then (s, false)
  else
    let integration_cycles := pyRound (integration_seconds * 10 ^ 9 / 10)
    let c := max 1 (min integration_cycles 65534)
    ({ s with
        HardwareIntegration := c.toNat
        exposure := (s.NIntegFrames : ℚ) * ((c : ℚ) * tenNanoseconds) }, true)

/-- The counts-per-second scaling step at the end of
`SPC3_Qudi.get_acquired_data`: when the display units are cps the frame is
divided by `_HardwareIntegration * 10e-9 * _NIntegFrames` (note: the stored
`_HardwareIntegration` attribute, with no Normal-mode dispatch) and cast back
to the integer dtype. -/
def scale_if_cps (s : QudiState) (frame : List Int) : List Int :=
  if s.display_units = DisplayUnits.cps then
    frame.map fun v =>
      pyTrunc ((v : ℚ) / ((s.HardwareIntegration : ℚ) * tenNanoseconds * (s.NIntegFrames : ℚ)))
  else frame

/-- `SPC3_Qudi.get_acquired_data` on a live frame: apply software background
subtraction `max(frame - reference, 0)` when enabled, a present reference and
matching sizes (returning the raw frame early — skipping even the cps scaling
— when the reference is missing or of mismatched size), then scale to
counts-per-second when the display units are cps. -/
def get_acquired_data (s : QudiState) (frame : List Int) : List Int :=
  if s.background_subtraction_enabled then
    match s.background_image with
    | none => frame
    | some bg =>
      if bg.length ≠ frame.length then frame
      else scale_if_cps s (List.zipWith (fun a b => max (a - b) 0) frame bg)
  else scale_if_cps s frame

/-- The element-wise `np.mean(frames_stack, axis=0).astype(np.uint16)` of
`capture_background_image`. -/
def mean_frames (frames : List (List Int)) : List Int :=
  match frames with
  | [] => []
  | f0 :: _ =>
    (List.range f0.length).map fun j =>
      pyTrunc (((frames.map fun fr => fr.getD j 0).sum : ℚ) / (frames.length : ℚ))

/-- `SPC3_Qudi.capture_background_image`: start live mode if idle, average the
captured frames into `_background_image`, restore the previous live state, and
return `True`; on any exception (modelled by `fail`, and forced when there are
no frames to stack) return `False` without storing a reference. -/
def capture_background_image (s : QudiState) (frames : List (List Int)) (fail : Bool) :
    QudiState × Bool :=
  if fail || frames.isEmpty then (s, false)
  else
    let was_live := s.live
    let s1 := if was_live then s else (start_live_acquisition s).1
    let s2 := if was_live then s1 else stop_acquisition s1
    ({ s2 with background_image := some (mean_frames frames) }, true)

/-- `SPC3_Qudi.enable_background_subtraction`: refuses (returns `False`,
leaving the flag unchanged) when no background image has been captured. -/
def enable_background_subtraction (s : QudiState) : QudiState × Bool :=
  match s.background_image with
  | none => (s, false)
  | some _ => ({ s with background_subtraction_enabled := true }, true)

/-- `SPC3_Qudi.disable_background_subtraction`. -/
def disable_background_subtraction (s : QudiState) : QudiState × Bool :=
  ({ s with background_subtraction_enabled := false }, true)

/-- The state right after `on_activate` with the configuration defaults of the
class (`default_hardware_integration` 5200, `default_NFrames` 1,
`default_NIntegFrames` 1000, counts units, everything idle, no background
reference). -/
def exState : QudiState :=
  { camera_mode := CameraMode.Normal
    HardwareIntegration := 5200
    NFrames := 1
    NIntegFrames := 1000
    exposure := 1 / 50
    live := false
    acquiring := false
    continuous := false
    background_subtraction_enabled := false
    background_image := none
    display_units := DisplayUnits.counts }

example : pyRound (3 / 2 : ℚ) = 2 := by norm_num [pyRound]

example : pyRound (5 / 2 : ℚ) = 2 := by norm_num [pyRound]

example : pyRound (-3 / 2 : ℚ) = -2 := by norm_num [pyRound]

/-- C4: in Normal mode, `set_exposure e` stores the integrated-frames count
`round(e / (1040 * 10e-9))` clamped to `[1, 65534]`, warns exactly when the
clamp changed the rounded value while still returning success (no hard
failure), and leaves the stored exposure equal to the clamped count times
`1040 * 10e-9` seconds. -/
theorem set_exposure_normal_rounds_clamps_warns (s : QudiState) (e : ℚ)
    (h : s.camera_mode = CameraMode.Normal) :
    (set_exposure s e).state.NIntegFrames
        = (max 1 (min (pyRound (e / ((1040 : ℚ) * tenNanoseconds))) 65534)).toNat ∧
      (set_exposure s e).retval = true ∧
      ((set_exposure s e).warned = true ↔
        max 1 (min (pyRound (e / ((1040 : ℚ) * tenNanoseconds))) 65534)
          ≠ pyRound (e / ((1040 : ℚ) * tenNanoseconds))) ∧
      (set_exposure s e).state.exposure
        = ((set_exposure s e).state.NIntegFrames : ℚ) * ((1040 : ℚ) * tenNanoseconds) := by
  have hht : hardware_time s = (1040 : ℚ) * tenNanoseconds := by
    unfold hardware_time
    rw [h, if_neg (by decide : ¬ (CameraMode.Normal = CameraMode.Advanced))]
    norm_num [HardwareIntegration_Normal]
  have h0 : (0 : Int) ≤ max 1 (min (pyRound (e / ((1040 : ℚ) * tenNanoseconds))) 65534) :=
    le_trans zero_le_one (le_max_left _ _)
  refine ⟨by simp [set_exposure, hht], rfl, ?_, ?_⟩
  · simp [set_exposure, hht, bne_iff_ne]
  · simp only [set_exposure, hht]
    have hc : (((max 1 (min (pyRound (e / ((1040 : ℚ) * tenNanoseconds))) 65534)).toNat : ℚ))
        = ((max 1 (min (pyRound (e / ((1040 : ℚ) * tenNanoseconds))) 65534) : Int) : ℚ) := by
      exact_mod_cast congrArg (fun z : Int => (z : ℚ)) (Int.toNat_of_nonneg h0)
    rw [hc]

/-- Witness for C4 at the default Normal-mode state and a one-second request
(rounds to 96154 integrated frames, clamped to 65534 with a warning). -/
theorem set_exposure_normal_rounds_clamps_warns_witness :
    exState.camera_mode = CameraMode.Normal ∧
      ((set_exposure exState 1).state.NIntegFrames
          = (max 1 (min (pyRound (1 / ((1040 : ℚ) * tenNanoseconds))) 65534)).toNat ∧
        (set_exposure exState 1).retval = true ∧
        ((set_exposure exState 1).warned = true ↔
          max 1 (min (pyRound (1 / ((1040 : ℚ) * tenNanoseconds))) 65534)
            ≠ pyRound (1 / ((1040 : ℚ) * tenNanoseconds))) ∧
        (set_exposure exState 1).state.exposure
          = ((set_exposure exState 1).state.NIntegFrames : ℚ)
              * ((1040 : ℚ) * tenNanoseconds)) :=
  ⟨rfl, set_exposure_normal_rounds_clamps_warns exState 1 rfl⟩

/-- The default state with cps display units during live acquisition: Normal
mode with the configured `_HardwareIntegration` of 5200 cycles untouched. -/
def exStateC5 : QudiState :=
  { exState with display_units := DisplayUnits.cps, live := true }

/-- C5 (code bug): in Normal mode with the default configuration
(`_HardwareIntegration` = 5200, never reset to 1040 by Normal-mode
activation), the cps scaling of `get_acquired_data` divides a frame value of
52 by `5200 * 10e-9 * 1000 = 0.052 s`, yielding 1000 cps, whereas the current
exposure duration per the unit-conversion rules (and per `get_exposure`, which
returns 0.0104 s) requires `52 / (1040 * 10e-9 * 1000) = 5000` cps. -/
theorem get_acquired_data_cps_divisor_bug :
    get_acquired_data exStateC5 [52] = [1000] ∧
      (get_exposure exStateC5).2 = 13 / 1250 ∧
      pyTrunc ((52 : ℚ) / ((1040 : ℚ) * tenNanoseconds * (1000 : ℚ))) = 5000 ∧
      (1000 : Int) ≠ 5000 := by
  refine ⟨?_, ?_, ?_, by decide⟩
  · norm_num [get_acquired_data, scale_if_cps, exStateC5, exState, pyTrunc, tenNanoseconds]
  · norm_num [get_exposure, hardware_time, exStateC5, exState, HardwareIntegration_Normal,
      tenNanoseconds]
    decide
  · norm_num [pyTrunc, tenNanoseconds]

/-- C6 counterexample: from the idle default state, starting a Continuous
acquisition and then calling `start_live_acquisition` succeeds (returns
`True`) and leaves BOTH the live and the continuous flags set, so starting
Live while Continuous is active does not fail and the exclusivity invariant is
violated in a reachable state. -/
theorem start_live_during_continuous_cex :
    (continuous_acquisition exState).2 = true ∧
      (start_live_acquisition (continuous_acquisition exState).1).2 = true ∧
      (start_live_acquisition (continuous_acquisition exState).1).1.live = true ∧
      (start_live_acquisition (continuous_acquisition exState).1).1.continuous = true :=
  ⟨rfl, rfl, rfl, rfl⟩

/-- C6 (amended): the exclusivity guard exists only in one direction.
`continuous_acquisition` fails and changes nothing while Live is active, but
`start_live_acquisition` checks nothing: called while Continuous is active it
still returns success, switches Live on and leaves Continuous active. -/
theorem start_live_unguarded (s : QudiState) (h : s.continuous = true) :
    ((start_live_acquisition s).2 = true ∧
      (start_live_acquisition s).1.live = true ∧
      (start_live_acquisition s).1.continuous = true) ∧
    (∀ s', s'.live = true →
      (continuous_acquisition s').2 = false ∧ (continuous_acquisition s').1 = s') := by
  refine ⟨⟨rfl, rfl, h⟩, ?_⟩
  intro s' h'
  unfold continuous_acquisition
  rw [h']
  simp

/-- Witness for the amended C6 at the default state with Continuous active. -/
theorem start_live_unguarded_witness :
    ({ exState with continuous := true } : QudiState).continuous = true ∧
      (((start_live_acquisition { exState with continuous := true }).2 = true ∧
        (start_live_acquisition { exState with continuous := true }).1.live = true ∧
        (start_live_acquisition { exState with continuous := true }).1.continuous = true) ∧
      (∀ s', s'.live = true →
        (continuous_acquisition s').2 = false ∧ (continuous_acquisition s').1 = s')) :=
  ⟨rfl, start_live_unguarded { exState with continuous := true } rfl⟩

/-- Every element of a floor-at-zero subtraction is nonnegative. -/
theorem zipWith_sub_max_nonneg (l₁ l₂ : List Int) :
    ∀ v ∈ List.zipWith (fun a b => max (a - b) 0) l₁ l₂, 0 ≤ v := by
  induction l₁ generalizing l₂ with
  | nil =>
    intro v hv
    simp at hv
  | cons a t ih =>
    intro v hv
    cases l₂ with
    | nil => simp at hv
    | cons b t2 =>
      rcases List.mem_cons.mp hv with hh | hh
      · rw [hh]
        exact le_max_right _ _
      · exact ih t2 v hh

/-- C7 (amended): while background subtraction is enabled with a
matching-size captured reference and the display units are counts, the
returned live frame is exactly `max(frame - reference, 0)` element-wise, and
no element of the corrected frame is negative.  (With cps units the corrected
frame is additionally scaled before being returned — see the counterexample —
but the floor at zero still precedes the scaling.) -/
theorem background_subtraction_floor (s : QudiState) (frame bg : List Int)
    (hen : s.background_subtraction_enabled = true)
    (hbg : s.background_image = some bg)
    (hlen : bg.length = frame.length)
    (hunits : s.display_units = DisplayUnits.counts) :
    get_acquired_data s frame = List.zipWith (fun a b => max (a - b) 0) frame bg ∧
      ∀ v ∈ get_acquired_data s frame, 0 ≤ v := by
  have hmain : get_acquired_data s frame
      = List.zipWith (fun a b => max (a - b) 0) frame bg := by
    unfold get_acquired_data
    rw [hen, hbg]
    simp only [if_true]
    rw [if_neg (by rw [hlen]; exact fun hne => hne rfl)]
    unfold scale_if_cps
    rw [hunits, if_neg (by decide : ¬ (DisplayUnits.counts = DisplayUnits.cps))]
  refine ⟨hmain, ?_⟩
  rw [hmain]
  exact zipWith_sub_max_nonneg frame bg

/-- A live state with subtraction enabled, a reference `[3, 20]`, counts
units. -/
def exStateC7w : QudiState :=
  { exState with
      live := true
      background_subtraction_enabled := true
      background_image := some [3, 20] }

/-- Witness for the amended C7 on the frame `[10, 5]` with reference
`[3, 20]`. -/
theorem background_subtraction_floor_witness :
    (exStateC7w.background_subtraction_enabled = true ∧
      exStateC7w.background_image = some [3, 20] ∧
      ([3, 20] : List Int).length = ([10, 5] : List Int).length ∧
      exStateC7w.display_units = DisplayUnits.counts) ∧
    (get_acquired_data exStateC7w [10, 5]
        = List.zipWith (fun a b => max (a - b) 0) ([10, 5] : List Int) [3, 20] ∧
      ∀ v ∈ get_acquired_data exStateC7w [10, 5], 0 ≤ v) :=
  ⟨⟨rfl, rfl, rfl, rfl⟩,
    background_subtraction_floor exStateC7w [10, 5] [3, 20] rfl rfl rfl rfl⟩

/-- A live cps state with subtraction enabled and reference `[3]`. -/
def exStateC7 : QudiState :=
  { exState with
      live := true
      background_subtraction_enabled := true
      background_image := some [3]
      display_units := DisplayUnits.cps }

/-- C7 counterexample as stated: with cps display units the returned frame is
the cps-scaled subtraction (here `trunc(7 / 0.052) = 134`), not
`max(frame - reference, 0) = 7`, so "every live frame returned equals
max(frame - reference, 0)" fails without a counts-units assumption. -/
theorem background_subtraction_cps_scaled_cex :
    get_acquired_data exStateC7 [10] = [134] ∧
      List.zipWith (fun a b => max (a - b) 0) ([10] : List Int) [3] = [7] ∧
      (134 : Int) ≠ 7 := by
  refine ⟨?_, by decide, by decide⟩
  norm_num [get_acquired_data, scale_if_cps, exStateC7, exState, pyTrunc, tenNanoseconds]
  decide

/-- `get_integration_value_ns` of `camera_exposure_settings.py`: the spinbox
value (microseconds) times 100, truncated to int. -/
def get_integration_value_ns_settings (value_us : ℚ) : Int := pyTrunc (value_us * 100)

/-- `get_integration_value_ns` of `camera_exposure_settings_SPC3.py`: the
spinbox value (microseconds) times 1000, truncated to int. -/
def get_integration_value_ns_settings_SPC3 (value_us : ℚ) : Int := pyTrunc (value_us * 1000)

/-- `pyTrunc` is the identity on naturals. -/
theorem pyTrunc_natCast (m : Nat) : pyTrunc (m : ℚ) = m := by
  unfold pyTrunc
  rw [Rat.num_natCast, Rat.den_natCast]
  simp [Int.tdiv]

/-- C9: the two control-panel variants scale the same microseconds spinbox
value by different factors (100 vs 1000), so they disagree (already at value
1), and only the x1000 variant realizes the canonical conversion
microseconds x 1000 = nanoseconds. -/
theorem integration_ns_variants_inequivalent :
    get_integration_value_ns_settings 1 ≠ get_integration_value_ns_settings_SPC3 1 ∧
      (∀ n : Nat, get_integration_value_ns_settings_SPC3 (n : ℚ) = 1000 * n) ∧
      ¬ (∀ n : Nat, get_integration_value_ns_settings (n : ℚ) = 1000 * n) := by
  refine ⟨?_, ?_, ?_⟩
  · intro hcontra
    have h1 : get_integration_value_ns_settings 1 = 100 := by
      norm_num [get_integration_value_ns_settings, pyTrunc]
    have h2 : get_integration_value_ns_settings_SPC3 1 = 1000 := by
      norm_num [get_integration_value_ns_settings_SPC3, pyTrunc]
    rw [h1, h2] at hcontra
    exact absurd hcontra (by decide)
  · intro n
    unfold get_integration_value_ns_settings_SPC3
    have hcast : ((n : ℚ) * 1000) = ((1000 * n : Nat) : ℚ) := by
      push_cast
      ring
    rw [hcast, pyTrunc_natCast]
    push_cast
    ring
  · intro hall
    have h := hall 1
    have h1 : get_integration_value_ns_settings ((1 : Nat) : ℚ) = 100 := by
      norm_num [get_integration_value_ns_settings, pyTrunc]
    rw [h1] at h
    exact absurd h (by decide)

/-! Reachable-state invariant for background subtraction (C10).  The
operations of the caller-facing API that touch the state are collected in
`Op`; `applyOp` is the state component of each call. -/

/-- One caller-facing operation of `SPC3_Qudi`.  `captureBackground` carries
the live frames the hardware would deliver and whether an exception occurred
(`fail`). -/
inductive Op where
  | startLive
  | stopAcq
  | contAcq
  | stopCont
  | setExposureOp (e : ℚ)
  | setBinningOp (b : Int)
  | setHardwareIntegrationOp (q : ℚ)
  | setDisplayUnitsOp (u : DisplayUnits)
  | getExposureOp
  | captureBackground (frames : List (List Int)) (fail : Bool)
  | enableBG
  | disableBG

/-- The state after one operation. -/
def applyOp (s : QudiState) (op : Op) : QudiState :=
  match op with
  | .startLive => (start_live_acquisition s).1
  | .stopAcq => stop_acquisition s
  | .contAcq => (continuous_acquisition s).1
  | .stopCont => (stop_continuous_acquisition s).1
  | .setExposureOp e => (set_exposure s e).state
  | .setBinningOp b => (set_binning s b).1
  | .setHardwareIntegrationOp q => (set_hardware_integration s q).1
  | .setDisplayUnitsOp u => { s with display_units := u }
  | .getExposureOp => (get_exposure s).1
  | .captureBackground frames fail => (capture_background_image s frames fail).1
  | .enableBG => (enable_background_subtraction s).1
  | .disableBG => (disable_background_subtraction s).1

/-- The state after a sequence of operations. -/
def runOps (s : QudiState) (ops : List Op) : QudiState := ops.foldl applyOp s

/-- Single-step preservation: no operation can make subtraction enabled
without a stored reference. -/
theorem applyOp_bg_invariant (s : QudiState) (op : Op)
    (h : s.background_subtraction_enabled = true → s.background_image.isSome = true) :
    (applyOp s op).background_subtraction_enabled = true →
      (applyOp s op).background_image.isSome = true := by
  cases op with
  | startLive => exact h
  | stopAcq => exact h
  | contAcq =>
    simp only [applyOp, continuous_acquisition]
    split <;> exact h
  | stopCont =>
    simp only [applyOp, stop_continuous_acquisition]
    split <;> exact h
  | setExposureOp e => exact h
  | setBinningOp b => exact h
  | setHardwareIntegrationOp q =>
    simp only [applyOp, set_hardware_integration]
    split <;> exact h
  | setDisplayUnitsOp u => exact h
  | getExposureOp => exact h
  | captureBackground frames fail =>
    simp only [applyOp, capture_background_image]
    split
    · exact h
    · intro
      rfl
  | enableBG =>
    simp only [applyOp, enable_background_subtraction]
    split
    · exact h
    · intro
      simp_all
  | disableBG =>
    intro hcontra
    exact absurd hcontra (by simp [applyOp, disable_background_subtraction])

/-- C10: from any state without a background reference and with subtraction
disabled (the constructed state), every reachable state has a stored
background reference whenever subtraction is enabled, so `get_acquired_data`
never reaches the subtraction path without a reference: enabling fails and
leaves subtraction off when no reference exists, capturing stores a reference
exactly on success, and no operation ever clears the reference. -/
theorem bg_subtraction_reference_invariant (s0 : QudiState) (ops : List Op)
    (h0img : s0.background_image = none)
    (h0en : s0.background_subtraction_enabled = false) :
    (runOps s0 ops).background_subtraction_enabled = true →
      (runOps s0 ops).background_image.isSome = true := by
  have hbase : s0.background_subtraction_enabled = true → s0.background_image.isSome = true := by
    rw [h0en]
    intro hc
    exact absurd hc (by decide)
  clear h0img h0en
  induction ops generalizing s0 with
  | nil => exact hbase
  | cons op rest ih =>
    exact ih (applyOp s0 op) (applyOp_bg_invariant s0 op hbase)

/-- Witness for C10: the default idle state, a successful background capture
followed by enabling subtraction. -/
theorem bg_subtraction_reference_invariant_witness :
    (exState.background_image = none ∧ exState.background_subtraction_enabled = false) ∧
      ((runOps exState [Op.captureBackground [[0]] false, Op.enableBG]
          ).background_subtraction_enabled = true →
        (runOps exState [Op.captureBackground [[0]] false, Op.enableBG]
          ).background_image.isSome = true) :=
  ⟨⟨rfl, rfl⟩,
    bg_subtraction_reference_invariant exState [Op.captureBackground [[0]] false, Op.enableBG]
      rfl rfl⟩
